import Mathlib

/-!
Verification of the wet-bulb estimator of the WetBulbCalculator repository.

The estimator lives in the page component: a clamp helper, the range
constants, and a function that guards against non-finite inputs, clamps
both inputs, and evaluates the Stull 2011 approximation.  JavaScript
numbers are modelled by an inductive type with a finite-real constructor
plus the three non-finite values; finite arithmetic is modelled over the
real numbers.
-/

open Real

namespace WetBulb

/-- A min/max range record, as the source object literals with min and max
fields. -/
structure NumRange where
  min : ℝ
  max : ℝ

/-- The temperature range constant of the source. -/
def TEMPERATURE_RANGE : NumRange := ⟨-40, 60⟩

/-- The humidity range constant of the source. -/
def HUMIDITY_RANGE : NumRange := ⟨0, 100⟩

/-- The clamp helper of the source: min (max value r.min) r.max. -/
noncomputable def clamp (value : ℝ) (r : NumRange) : ℝ :=
  min (max value r.min) r.max

/-- A JavaScript number: either a finite real, NaN, or a signed infinity. -/
inductive JSNumber where
  | fin (val : ℝ)
  | nan
  | posInf
  | negInf

/-- Number.isFinite: true exactly on finite values. -/
def JSNumber.isFinite : JSNumber → Bool
  | JSNumber.fin _ => true
  | JSNumber.nan => false
  | JSNumber.posInf => false
  | JSNumber.negInf => false

/-- The numeric body of calculateWetBulb for finite inputs: clamp both
inputs and evaluate the Stull expression, mirroring the source line by
line (rhSqrt is the named intermediate of the source). -/
noncomputable def wetBulbReal (tempCelsius relHumidity : ℝ) : ℝ :=
  let T := clamp tempCelsius TEMPERATURE_RANGE
  let RH := clamp relHumidity HUMIDITY_RANGE
  let rhSqrt := Real.sqrt (RH + 8.313659)
  T * Real.arctan (0.151977 * rhSqrt) + Real.arctan (T + RH) -
      Real.arctan (RH - 1.676331) +
      0.00391838 * RH ^ (1.5 : ℝ) * Real.arctan (0.023101 * RH) -
    4.686035

/-- calculateWetBulb of the source: return NaN when either input fails the
Number.isFinite guard, otherwise clamp and evaluate the formula. -/
noncomputable def calculateWetBulb : JSNumber → JSNumber → JSNumber
  | JSNumber.fin t, JSNumber.fin rh => JSNumber.fin (wetBulbReal t rh)
  | _, _ => JSNumber.nan

/-- The Stull expression exactly as the specification writes it, for the
refinement claim C1: T * atan(0.151977 * sqrt(RH + 8.313659)) +
atan(T + RH) - atan(RH - 1.676331) + 0.00391838 * RH^1.5 *
atan(0.023101 * RH) - 4.686035, with atan applied directly to the
dimensionless arguments. -/
noncomputable def stullSpecFormula (T RH : ℝ) : ℝ :=
  T * Real.arctan (0.151977 * Real.sqrt (RH + 8.313659)) +
      Real.arctan (T + RH) - Real.arctan (RH - 1.676331) +
      0.00391838 * RH ^ (1.5 : ℝ) * Real.arctan (0.023101 * RH) -
    4.686035

/-! ### Basic clamp facts -/

theorem wetBulbReal_eq (t rh : ℝ) :
    wetBulbReal t rh =
      stullSpecFormula (clamp t TEMPERATURE_RANGE) (clamp rh HUMIDITY_RANGE) := rfl

theorem clamp_temp_val (v : ℝ) :
    clamp v TEMPERATURE_RANGE = min (max v (-40)) 60 := rfl

theorem clamp_hum_val (v : ℝ) :
    clamp v HUMIDITY_RANGE = min (max v 0) 100 := rfl

theorem clamp_eq_self {v : ℝ} {r : NumRange} (h1 : r.min ≤ v) (h2 : v ≤ r.max) :
    clamp v r = v := by
  unfold clamp
  rw [max_eq_left h1, min_eq_left h2]

theorem clamp_mem {v : ℝ} {r : NumRange} (h : r.min ≤ r.max) :
    r.min ≤ clamp v r ∧ clamp v r ≤ r.max := by
  unfold clamp
  constructor
  · exact le_min (le_max_right _ _) h
  · exact min_le_right _ _

theorem clamp_idem (v : ℝ) {r : NumRange} (h : r.min ≤ r.max) :
    clamp (clamp v r) r = clamp v r :=
  clamp_eq_self (clamp_mem h).1 (clamp_mem h).2

theorem wetBulbReal_clamp (t rh : ℝ) :
    wetBulbReal t rh =
      wetBulbReal (clamp t TEMPERATURE_RANGE) (clamp rh HUMIDITY_RANGE) := by
  rw [wetBulbReal_eq, wetBulbReal_eq,
    clamp_idem t (by norm_num [TEMPERATURE_RANGE]),
    clamp_idem rh (by norm_num [HUMIDITY_RANGE])]

/-! ### Claim theorems: clamping, error handling, purity -/

/-- Claim C2: for every pair of finite inputs (T, RH), the estimate equals
the estimate of the clamped inputs min(max(T, -40), 60) and
min(max(RH, 0), 100); in particular estimate(100, 60) = estimate(60, 60),
estimate(-100, 60) = estimate(-40, 60), estimate(25, 150) =
estimate(25, 100), and estimate(25, -10) = estimate(25, 0). -/
theorem C2_clamping (T RH : ℝ) :
    calculateWetBulb (JSNumber.fin T) (JSNumber.fin RH) =
        calculateWetBulb (JSNumber.fin (min (max T (-40)) 60))
          (JSNumber.fin (min (max RH 0) 100)) ∧
      calculateWetBulb (JSNumber.fin 100) (JSNumber.fin 60) =
        calculateWetBulb (JSNumber.fin 60) (JSNumber.fin 60) ∧
      calculateWetBulb (JSNumber.fin (-100)) (JSNumber.fin 60) =
        calculateWetBulb (JSNumber.fin (-40)) (JSNumber.fin 60) ∧
      calculateWetBulb (JSNumber.fin 25) (JSNumber.fin 150) =
        calculateWetBulb (JSNumber.fin 25) (JSNumber.fin 100) ∧
      calculateWetBulb (JSNumber.fin 25) (JSNumber.fin (-10)) =
        calculateWetBulb (JSNumber.fin 25) (JSNumber.fin 0) := by
  have key : ∀ a b : ℝ,
      calculateWetBulb (JSNumber.fin a) (JSNumber.fin b) =
        calculateWetBulb (JSNumber.fin (clamp a TEMPERATURE_RANGE))
          (JSNumber.fin (clamp b HUMIDITY_RANGE)) := by
    intro a b
    show JSNumber.fin (wetBulbReal a b) = JSNumber.fin (wetBulbReal _ _)
    rw [wetBulbReal_clamp a b]
  have e1 : clamp 100 TEMPERATURE_RANGE = 60 := by
    rw [clamp_temp_val, max_eq_left (by norm_num), min_eq_right (by norm_num)]
  have e2 : clamp 60 TEMPERATURE_RANGE = 60 := by
    rw [clamp_temp_val, max_eq_left (by norm_num), min_eq_left (by norm_num)]
  have e3 : clamp (-100) TEMPERATURE_RANGE = -40 := by
    rw [clamp_temp_val, max_eq_right (by norm_num), min_eq_left (by norm_num)]
  have e4 : clamp (-40) TEMPERATURE_RANGE = -40 := by
    rw [clamp_temp_val, max_eq_left (by norm_num), min_eq_left (by norm_num)]
  have e5 : clamp 150 HUMIDITY_RANGE = 100 := by
    rw [clamp_hum_val, max_eq_left (by norm_num), min_eq_right (by norm_num)]
  have e6 : clamp 100 HUMIDITY_RANGE = 100 := by
    rw [clamp_hum_val, max_eq_left (by norm_num), min_eq_left (by norm_num)]
  have e7 : clamp (-10) HUMIDITY_RANGE = 0 := by
    rw [clamp_hum_val, max_eq_right (by norm_num), min_eq_left (by norm_num)]
  have e8 : clamp 0 HUMIDITY_RANGE = 0 := by
    rw [clamp_hum_val, max_eq_left (by norm_num), min_eq_left (by norm_num)]
  refine ⟨key T RH, ?_, ?_, ?_, ?_⟩
  · rw [key 100 60, key 60 60, e1, e2]
  · rw [key (-100) 60, key (-40) 60, e3, e4]
  · rw [key 25 150, key 25 100, e5, e6]
  · rw [key 25 (-10), key 25 0, e7, e8]

/-- Claim C3: the estimator returns the NaN marker if and only if at least
one input is non-finite; for any two finite inputs it returns a finite
numeric value, never the marker. -/
theorem C3_nan_iff_nonfinite :
    (∀ t rh : JSNumber,
        calculateWetBulb t rh = JSNumber.nan ↔
          (t.isFinite = false ∨ rh.isFinite = false)) ∧
      ∀ x y : ℝ, calculateWetBulb (JSNumber.fin x) (JSNumber.fin y) =
        JSNumber.fin (wetBulbReal x y) := by
  constructor
  · intro t rh
    cases t <;> cases rh <;>
      simp [calculateWetBulb, JSNumber.isFinite]
  · intro x y
    rfl

/-- Claim C4: for every finite T in [-40, 60] and RH in [0, 100] the
estimator returns a finite numeric result (the isFinite predicate holds of
the output; no marker value is produced). -/
theorem C4_finite_output (T RH : ℝ) (hT1 : -40 ≤ T) (hT2 : T ≤ 60)
    (hRH1 : 0 ≤ RH) (hRH2 : RH ≤ 100) :
    (calculateWetBulb (JSNumber.fin T) (JSNumber.fin RH)).isFinite = true ∧
      calculateWetBulb (JSNumber.fin T) (JSNumber.fin RH) ≠ JSNumber.nan := by
  exact ⟨rfl, by simp [calculateWetBulb]⟩

/-- Witness for C4 at T = 32, RH = 60. -/
theorem C4_finite_output_witness :
    (calculateWetBulb (JSNumber.fin 32) (JSNumber.fin 60)).isFinite = true ∧
      calculateWetBulb (JSNumber.fin 32) (JSNumber.fin 60) ≠ JSNumber.nan :=
  C4_finite_output 32 60 (by norm_num) (by norm_num) (by norm_num) (by norm_num)

/-- Claim C5: the estimator is deterministic: two calls on identical
arguments return identical results.  (Purity is inherent in the model:
calculateWetBulb is a plain function of its two arguments with no state.) -/
theorem C5_deterministic (t rh t2 rh2 : JSNumber) (ht : t = t2) (hrh : rh = rh2) :
    calculateWetBulb t rh = calculateWetBulb t2 rh2 := by
  rw [ht, hrh]

/-- Witness for C5 at concrete equal arguments. -/
theorem C5_deterministic_witness :
    calculateWetBulb (JSNumber.fin 25) (JSNumber.fin 50) =
      calculateWetBulb (JSNumber.fin 25) (JSNumber.fin 50) :=
  C5_deterministic (JSNumber.fin 25) (JSNumber.fin 50)
    (JSNumber.fin 25) (JSNumber.fin 50) rfl rfl

/-- Claim C10: the clamped humidity fed to sqrt and to the 1.5 power is
always in [0, 100], so the sqrt argument RH + 8.313659 is at least
8.313659 (hence positive) and the power base is nonnegative. -/
theorem C10_partial_ops_safe (RH : ℝ) :
    0 ≤ clamp RH HUMIDITY_RANGE ∧
      clamp RH HUMIDITY_RANGE ≤ 100 ∧
      8.313659 ≤ clamp RH HUMIDITY_RANGE + 8.313659 ∧
      0 < clamp RH HUMIDITY_RANGE + 8.313659 := by
  have h := clamp_mem (v := RH) (r := HUMIDITY_RANGE) (by norm_num [HUMIDITY_RANGE])
  have h0 : (HUMIDITY_RANGE.min : ℝ) = 0 := rfl
  have h100 : (HUMIDITY_RANGE.max : ℝ) = 100 := rfl
  refine ⟨by rw [h0] at h; exact h.1, by rw [h100] at h; exact h.2, ?_, ?_⟩
  · rw [h0] at h; linarith [h.1]
  · rw [h0] at h; linarith [h.1]

/-- Claim C1: for finite T in [-40, 60] and RH in [0, 100] the estimator
returns exactly the Stull expression of the specification evaluated at
(T, RH): clamping is the identity there and no degree/radian conversion is
applied. -/
theorem C1_stull_formula (T RH : ℝ) (hT1 : -40 ≤ T) (hT2 : T ≤ 60)
    (hRH1 : 0 ≤ RH) (hRH2 : RH ≤ 100) :
    calculateWetBulb (JSNumber.fin T) (JSNumber.fin RH) =
      JSNumber.fin (stullSpecFormula T RH) := by
  show JSNumber.fin (wetBulbReal T RH) = _
  rw [wetBulbReal_eq,
    clamp_eq_self (r := TEMPERATURE_RANGE) hT1 hT2,
    clamp_eq_self (r := HUMIDITY_RANGE) hRH1 hRH2]

/-- Witness for C1 at T = 50, RH = 99 (a boundary point of the accurate
band named by the spec). -/
theorem C1_stull_formula_witness :
    calculateWetBulb (JSNumber.fin 50) (JSNumber.fin 99) =
      JSNumber.fin (stullSpecFormula 50 99) :=
  C1_stull_formula 50 99 (by norm_num) (by norm_num) (by norm_num) (by norm_num)

/-! ### Arctangent and square-root bound toolkit -/

theorem arctan_le_self {x : ℝ} (hx : 0 ≤ x) : Real.arctan x ≤ x := by
  have hmono : MonotoneOn (fun t : ℝ => t - Real.arctan t) (Set.Ici (0 : ℝ)) := by
    apply monotoneOn_of_deriv_nonneg (convex_Ici 0)
    · exact (continuous_id.sub Real.continuous_arctan).continuousOn
    · intro t _
      exact ((differentiable_id.sub Real.differentiable_arctan) t).differentiableWithinAt
    · intro t _
      have hd : deriv (fun t : ℝ => t - Real.arctan t) t = 1 - 1 / (1 + t ^ 2) :=
        ((hasDerivAt_id t).sub (Real.hasDerivAt_arctan t)).deriv
      rw [hd]
      have h1 : (0 : ℝ) < 1 + t ^ 2 := by positivity
      rw [sub_nonneg, div_le_one h1]
      nlinarith [sq_nonneg t]
  have h0 := hmono Set.left_mem_Ici (Set.mem_Ici.mpr hx) hx
  simpa [Real.arctan_zero, sub_nonneg] using h0

theorem self_sub_cube_le_arctan {x : ℝ} (hx : 0 ≤ x) :
    x - x ^ 3 / 3 ≤ Real.arctan x := by
  have hmono : MonotoneOn (fun t : ℝ => Real.arctan t - (t - t ^ 3 / 3))
      (Set.Ici (0 : ℝ)) := by
    apply monotoneOn_of_deriv_nonneg (convex_Ici 0)
    · apply Continuous.continuousOn
      exact Real.continuous_arctan.sub (continuous_id.sub
        ((continuous_pow 3).div_const 3))
    · intro t _
      apply DifferentiableAt.differentiableWithinAt
      exact (Real.differentiable_arctan t).sub
        ((differentiable_id t).sub (((differentiable_pow 3) t).div_const 3))
    · intro t _
      have hd : deriv (fun t : ℝ => Real.arctan t - (t - t ^ 3 / 3)) t =
          1 / (1 + t ^ 2) - (1 - (3 : ℕ) * t ^ 2 / 3) :=
        ((Real.hasDerivAt_arctan t).sub
          ((hasDerivAt_id t).sub ((hasDerivAt_pow 3 t).div_const 3))).deriv
      rw [hd]
      have h1 : (0 : ℝ) < 1 + t ^ 2 := by positivity
      have h2 : 1 / (1 + t ^ 2) - (1 - (3 : ℕ) * t ^ 2 / 3) =
          t ^ 4 / (1 + t ^ 2) := by
        push_cast
        field_simp
        ring
      rw [h2]
      positivity
  have h0 := hmono Set.left_mem_Ici (Set.mem_Ici.mpr hx) hx
  simp only [Real.arctan_zero] at h0
  have h0n : (0 : ℝ) ≤ Real.arctan x - (x - x ^ 3 / 3) := by
    have : (0 : ℝ) - (0 - 0 ^ 3 / 3) = 0 := by norm_num
    calc (0 : ℝ) = 0 - (0 - 0 ^ 3 / 3) := by norm_num
    _ ≤ Real.arctan x - (x - x ^ 3 / 3) := h0
  linarith

theorem arctan_nonneg_of_nonneg {x : ℝ} (hx : 0 ≤ x) : 0 ≤ Real.arctan x := by
  have h := Real.arctan_strictMono.monotone hx
  rwa [Real.arctan_zero] at h

theorem arctan_pos_of_pos {x : ℝ} (hx : 0 < x) : 0 < Real.arctan x := by
  have h := Real.arctan_strictMono hx
  rwa [Real.arctan_zero] at h

theorem arctan_shift {a : ℝ} (ha : -1 < a) :
    Real.arctan a = Real.pi / 4 + Real.arctan ((a - 1) / (a + 1)) := by
  have hden : (0 : ℝ) < a + 1 := by linarith
  have ht1 : (1 : ℝ) * ((a - 1) / (a + 1)) < 1 := by
    rw [one_mul, div_lt_one hden]
    linarith
  have h := Real.arctan_add (x := 1) (y := (a - 1) / (a + 1)) ht1
  rw [Real.arctan_one] at h
  have harg : (1 + (a - 1) / (a + 1)) / (1 - 1 * ((a - 1) / (a + 1))) = a := by
    rw [one_mul]
    have hnum : 1 + (a - 1) / (a + 1) = 2 * a / (a + 1) := by
      field_simp
      ring
    have hden2 : 1 - (a - 1) / (a + 1) = 2 / (a + 1) := by
      field_simp
      ring
    have hne : a + 1 ≠ 0 := ne_of_gt hden
    rw [hnum, hden2, div_div_div_eq]
    field_simp
    ring
  rw [harg] at h
  linarith

theorem arctan_lb_shift {q x : ℝ} (hq : 1 ≤ q) (hqx : q ≤ x) :
    Real.pi / 4 + (q - 1) / (q + 1) - ((q - 1) / (q + 1)) ^ 3 / 3 ≤
      Real.arctan x := by
  have ht0 : 0 ≤ (q - 1) / (q + 1) := div_nonneg (by linarith) (by linarith)
  have h1 : Real.arctan q ≤ Real.arctan x := Real.arctan_strictMono.monotone hqx
  rw [arctan_shift (by linarith : (-1 : ℝ) < q)] at h1
  have h2 := self_sub_cube_le_arctan ht0
  linarith

theorem arctan_ub_shift {q x : ℝ} (hq : 1 ≤ q) (hxq : x ≤ q) :
    Real.arctan x ≤ Real.pi / 4 + (q - 1) / (q + 1) := by
  have ht0 : 0 ≤ (q - 1) / (q + 1) := div_nonneg (by linarith) (by linarith)
  have h1 : Real.arctan x ≤ Real.arctan q := Real.arctan_strictMono.monotone hxq
  rw [arctan_shift (by linarith : (-1 : ℝ) < q)] at h1
  have h2 := arctan_le_self ht0
  linarith

theorem arctan_lb_inv {q x : ℝ} (hq : 0 < q) (hqx : q ≤ x) :
    Real.pi / 2 - q⁻¹ ≤ Real.arctan x := by
  have h1 : Real.arctan q ≤ Real.arctan x := Real.arctan_strictMono.monotone hqx
  have h2 := Real.arctan_inv_of_pos hq
  have h3 : Real.arctan q⁻¹ ≤ q⁻¹ := arctan_le_self (by positivity)
  linarith

theorem arctan_ub_inv {q x : ℝ} (hq : 0 < q) (hxq : x ≤ q) :
    Real.arctan x ≤ Real.pi / 2 - (q⁻¹ - (q⁻¹) ^ 3 / 3) := by
  have h1 : Real.arctan x ≤ Real.arctan q := Real.arctan_strictMono.monotone hxq
  have h2 := Real.arctan_inv_of_pos hq
  have h3 : q⁻¹ - (q⁻¹) ^ 3 / 3 ≤ Real.arctan q⁻¹ :=
    self_sub_cube_le_arctan (by positivity)
  linarith

theorem sqrt_lb {a l : ℝ} (h : l ^ 2 ≤ a) : l ≤ Real.sqrt a :=
  Real.le_sqrt_of_sq_le h

theorem sqrt_ub {a u : ℝ} (hu : 0 ≤ u) (h : a ≤ u ^ 2) : Real.sqrt a ≤ u := by
  calc Real.sqrt a ≤ Real.sqrt (u ^ 2) := Real.sqrt_le_sqrt h
  _ = u := Real.sqrt_sq hu

theorem rpow_three_halves {a : ℝ} (ha : 0 ≤ a) :
    a ^ (1.5 : ℝ) = Real.sqrt (a ^ 3) := by
  rw [show (1.5 : ℝ) = ((3 : ℕ) : ℝ) * (1 / 2 : ℝ) by norm_num]
  rw [Real.rpow_mul ha, Real.rpow_natCast, ← Real.sqrt_eq_rpow]

/-- The formula on in-range inputs, with the power rewritten through sqrt. -/
theorem wetBulbReal_in_range {T RH : ℝ} (hT1 : -40 ≤ T) (hT2 : T ≤ 60)
    (hRH1 : 0 ≤ RH) (hRH2 : RH ≤ 100) :
    wetBulbReal T RH =
      T * Real.arctan (0.151977 * Real.sqrt (RH + 8.313659)) +
          Real.arctan (T + RH) - Real.arctan (RH - 1.676331) +
          0.00391838 * Real.sqrt (RH ^ 3) * Real.arctan (0.023101 * RH) -
        4.686035 := by
  rw [wetBulbReal_eq,
    clamp_eq_self (r := TEMPERATURE_RANGE) hT1 hT2,
    clamp_eq_self (r := HUMIDITY_RANGE) hRH1 hRH2]
  unfold stullSpecFormula
  rw [rpow_three_halves hRH1]

theorem arctan_ub_small {q x : ℝ} (hq : 0 ≤ q) (hxq : x ≤ q) :
    Real.arctan x ≤ q :=
  (Real.arctan_strictMono.monotone hxq).trans (arctan_le_self hq)

theorem mul3_lb {k s d ls ld : ℝ} (hk : 0 ≤ k) (hs : ls ≤ s) (hd : ld ≤ d)
    (hls : 0 ≤ ls) (hld : 0 ≤ ld) : k * ls * ld ≤ k * s * d := by
  have h1 : ls * ld ≤ s * d := mul_le_mul hs hd hld (le_trans hls hs)
  calc k * ls * ld = k * (ls * ld) := by ring
  _ ≤ k * (s * d) := mul_le_mul_of_nonneg_left h1 hk
  _ = k * s * d := by ring

theorem mul3_ub {k s d us ud : ℝ} (hk : 0 ≤ k) (hs : s ≤ us) (hd : d ≤ ud)
    (hs0 : 0 ≤ s) (hd0 : 0 ≤ d) : k * s * d ≤ k * us * ud := by
  have h1 : s * d ≤ us * ud := mul_le_mul hs hd hd0 (le_trans hs0 hs)
  calc k * s * d = k * (s * d) := by ring
  _ ≤ k * (us * ud) := mul_le_mul_of_nonneg_left h1 hk
  _ = k * us * ud := by ring

/-! ### Claim C9: strict monotonicity in temperature -/

/-- Claim C9: for every fixed RH in [0, 100] the estimate is strictly
increasing in temperature on the clamped domain [-40, 60]. -/
theorem C9_strict_mono_in_temp (T1 T2 RH : ℝ) (hRH1 : 0 ≤ RH)
    (hRH2 : RH ≤ 100) (hT1 : -40 ≤ T1) (hlt : T1 < T2) (hT2 : T2 ≤ 60) :
    wetBulbReal T1 RH < wetBulbReal T2 RH := by
  rw [wetBulbReal_in_range hT1 (by linarith) hRH1 hRH2,
    wetBulbReal_in_range (by linarith) hT2 hRH1 hRH2]
  have hargpos : 0 < 0.151977 * Real.sqrt (RH + 8.313659) := by
    have hs : 0 < Real.sqrt (RH + 8.313659) :=
      Real.sqrt_pos.mpr (by linarith)
    linarith
  have hc : 0 < Real.arctan (0.151977 * Real.sqrt (RH + 8.313659)) :=
    arctan_pos_of_pos hargpos
  have hmul : T1 * Real.arctan (0.151977 * Real.sqrt (RH + 8.313659)) <
      T2 * Real.arctan (0.151977 * Real.sqrt (RH + 8.313659)) :=
    mul_lt_mul_of_pos_right hlt hc
  have hat : Real.arctan (T1 + RH) < Real.arctan (T2 + RH) :=
    Real.arctan_strictMono (by linarith)
  linarith

/-- Witness for C9 at RH = 60, T1 = 25, T2 = 26. -/
theorem C9_strict_mono_in_temp_witness :
    wetBulbReal 25 60 < wetBulbReal 26 60 :=
  C9_strict_mono_in_temp 25 26 60 (by norm_num) (by norm_num) (by norm_num)
    (by norm_num) (by norm_num)

/-! ### Concrete literal forms of the estimate at the sampled points -/

theorem wetBulb_25_10 :
    wetBulbReal 25 10 =
      25 * Real.arctan (0.151977 * Real.sqrt 18.313659) + Real.arctan 35 -
          Real.arctan 8.323669 +
          0.00391838 * Real.sqrt 1000 * Real.arctan 0.23101 - 4.686035 := by
  rw [wetBulbReal_in_range (by norm_num) (by norm_num) (by norm_num)
    (by norm_num)]
  norm_num

theorem wetBulb_25_50 :
    wetBulbReal 25 50 =
      25 * Real.arctan (0.151977 * Real.sqrt 58.313659) + Real.arctan 75 -
          Real.arctan 48.323669 +
          0.00391838 * Real.sqrt 125000 * Real.arctan 1.15505 - 4.686035 := by
  rw [wetBulbReal_in_range (by norm_num) (by norm_num) (by norm_num)
    (by norm_num)]
  norm_num

theorem wetBulb_25_90 :
    wetBulbReal 25 90 =
      25 * Real.arctan (0.151977 * Real.sqrt 98.313659) + Real.arctan 115 -
          Real.arctan 88.323669 +
          0.00391838 * Real.sqrt 729000 * Real.arctan 2.07909 - 4.686035 := by
  rw [wetBulbReal_in_range (by norm_num) (by norm_num) (by norm_num)
    (by norm_num)]
  norm_num

theorem wetBulb_32_60 :
    wetBulbReal 32 60 =
      32 * Real.arctan (0.151977 * Real.sqrt 68.313659) + Real.arctan 92 -
          Real.arctan 58.323669 +
          0.00391838 * Real.sqrt 216000 * Real.arctan 1.38606 - 4.686035 := by
  rw [wetBulbReal_in_range (by norm_num) (by norm_num) (by norm_num)
    (by norm_num)]
  norm_num

/-! ### Claim C6: ordering in humidity at the sampled points -/

/-- Claim C6: holding temperature fixed at 25 C, the estimate is ordered by
humidity at the sampled points: estimate(25, 90) is at least
estimate(25, 50), which is at least estimate(25, 10). -/
theorem C6_humidity_order :
    wetBulbReal 25 90 ≥ wetBulbReal 25 50 ∧
      wetBulbReal 25 50 ≥ wetBulbReal 25 10 := by
  have hpigt := Real.pi_gt_d6
  have hpilt := Real.pi_lt_d6
  constructor
  · rw [ge_iff_le, wetBulb_25_50, wetBulb_25_90]
    have hA : Real.arctan (0.151977 * Real.sqrt 58.313659) ≤
        Real.arctan (0.151977 * Real.sqrt 98.313659) := by
      apply Real.arctan_strictMono.monotone
      have hs := Real.sqrt_le_sqrt (show (58.313659:ℝ) ≤ 98.313659 by norm_num)
      have := mul_le_mul_of_nonneg_left hs (show (0:ℝ) ≤ 0.151977 by norm_num)
      linarith
    have hB : Real.arctan 75 ≤ Real.arctan 115 :=
      Real.arctan_strictMono.monotone (by norm_num)
    have hC1 : Real.arctan (88.323669:ℝ) ≤ 1.5707965 := by
      have := Real.arctan_lt_pi_div_two (88.323669:ℝ)
      linarith
    have hC2 : (1.5499:ℝ) ≤ Real.arctan 48.323669 := by
      have h := arctan_lb_inv (q := 48) (by norm_num)
        (by norm_num : (48:ℝ) ≤ 48.323669)
      have : ((48:ℝ))⁻¹ ≤ 0.0208334 := by norm_num
      linarith
    have hP90 : (3.75:ℝ) ≤
        0.00391838 * Real.sqrt 729000 * Real.arctan 2.07909 := by
      have hs : (853.81:ℝ) ≤ Real.sqrt 729000 := sqrt_lb (by norm_num)
      have hd : (1.1214:ℝ) ≤ Real.arctan 2.07909 := by
        have h := arctan_lb_shift (q := 2.07909) (by norm_num) le_rfl
        have hc : (0.33610:ℝ) ≤
            (2.07909 - 1) / (2.07909 + 1) -
              ((2.07909 - 1) / (2.07909 + 1)) ^ 3 / 3 := by norm_num
        linarith
      have := mul3_lb (k := 0.00391838) (by norm_num) hs hd (by norm_num)
        (by norm_num)
      linarith
    have hP50 : 0.00391838 * Real.sqrt 125000 * Real.arctan 1.15505 ≤
        1.1878 := by
      have hs : Real.sqrt (125000:ℝ) ≤ 353.554 :=
        sqrt_ub (by norm_num) (by norm_num)
      have hd : Real.arctan (1.15505:ℝ) ≤ 0.85735 := by
        have h := arctan_ub_shift (q := 1.15505) (by norm_num) le_rfl
        have hc : ((1.15505:ℝ) - 1) / (1.15505 + 1) ≤ 0.0719474 := by norm_num
        linarith
      have := mul3_ub (k := 0.00391838) (by norm_num) hs hd
        (Real.sqrt_nonneg _) (arctan_nonneg_of_nonneg (by norm_num))
      linarith
    linarith
  · rw [ge_iff_le, wetBulb_25_10, wetBulb_25_50]
    have hA50 : (0.85932:ℝ) ≤
        Real.arctan (0.151977 * Real.sqrt 58.313659) := by
      have hs : (7.6363:ℝ) ≤ Real.sqrt 58.313659 := sqrt_lb (by norm_num)
      have harg : (1.16:ℝ) ≤ 0.151977 * Real.sqrt 58.313659 := by
        have := mul_le_mul_of_nonneg_left hs
          (show (0:ℝ) ≤ 0.151977 by norm_num)
        linarith
      have h := arctan_lb_shift (q := 1.16) (by norm_num) harg
      have hc : (0.07393:ℝ) ≤
          (1.16 - 1) / (1.16 + 1) - ((1.16 - 1) / (1.16 + 1)) ^ 3 / 3 := by
        norm_num
      linarith
    have hA10 : Real.arctan (0.151977 * Real.sqrt 18.313659) ≤ 0.65041 := by
      have hs : Real.sqrt (18.313659:ℝ) ≤ 4.2796 :=
        sqrt_ub (by norm_num) (by norm_num)
      have harg : 0.151977 * Real.sqrt 18.313659 ≤ 0.65041 := by
        have := mul_le_mul_of_nonneg_left hs
          (show (0:ℝ) ≤ 0.151977 by norm_num)
        linarith
      exact arctan_ub_small (by norm_num) harg
    have hB : Real.arctan 35 ≤ Real.arctan 75 :=
      Real.arctan_strictMono.monotone (by norm_num)
    have hC1 : Real.arctan (48.323669:ℝ) ≤ 1.5707965 := by
      have := Real.arctan_lt_pi_div_two (48.323669:ℝ)
      linarith
    have hC2 : (1.4457:ℝ) ≤ Real.arctan 8.323669 := by
      have h := arctan_lb_inv (q := 8) (by norm_num)
        (by norm_num : (8:ℝ) ≤ 8.323669)
      have : ((8:ℝ))⁻¹ ≤ 0.125 := by norm_num
      linarith
    have hP50 : (0:ℝ) ≤ 0.00391838 * Real.sqrt 125000 *
        Real.arctan 1.15505 :=
      mul_nonneg (mul_nonneg (by norm_num) (Real.sqrt_nonneg _))
        (arctan_nonneg_of_nonneg (by norm_num))
    have hP10 : 0.00391838 * Real.sqrt 1000 * Real.arctan 0.23101 ≤
        0.02864 := by
      have hs : Real.sqrt (1000:ℝ) ≤ 31.6228 :=
        sqrt_ub (by norm_num) (by norm_num)
      have hd : Real.arctan (0.23101:ℝ) ≤ 0.23101 :=
        arctan_le_self (by norm_num)
      have := mul3_ub (k := 0.00391838) (by norm_num) hs hd
        (Real.sqrt_nonneg _) (arctan_nonneg_of_nonneg (by norm_num))
      linarith
    linarith

/-! ### Claim C7: known-value check at (32, 60) -/

/-- Claim C7: the estimate at 32 C and 60 percent humidity lies within one
degree of 26.5 C. -/
theorem C7_known_value :
    |wetBulbReal 32 60 - 26.5| ≤ 1 ∧
      calculateWetBulb (JSNumber.fin 32) (JSNumber.fin 60) =
        JSNumber.fin (wetBulbReal 32 60) := by
  refine ⟨?_, rfl⟩
  have hpigt := Real.pi_gt_d6
  have hpilt := Real.pi_lt_d6
  rw [wetBulb_32_60]
  have hs1 : (8.2652:ℝ) ≤ Real.sqrt 68.313659 := sqrt_lb (by norm_num)
  have hs2 : Real.sqrt (68.313659:ℝ) ≤ 8.2653 :=
    sqrt_ub (by norm_num) (by norm_num)
  have harg1 : (1.2561:ℝ) ≤ 0.151977 * Real.sqrt 68.313659 := by
    have := mul_le_mul_of_nonneg_left hs1 (show (0:ℝ) ≤ 0.151977 by norm_num)
    linarith
  have harg2 : 0.151977 * Real.sqrt 68.313659 ≤ 1.2562 := by
    have := mul_le_mul_of_nonneg_left hs2 (show (0:ℝ) ≤ 0.151977 by norm_num)
    linarith
  have hA1 : (0.8984:ℝ) ≤ Real.arctan (0.151977 * Real.sqrt 68.313659) := by
    have h := arctan_lb_shift (q := 1.2561) (by norm_num) harg1
    have hc : (0.11302:ℝ) ≤
        (1.2561 - 1) / (1.2561 + 1) - ((1.2561 - 1) / (1.2561 + 1)) ^ 3 / 3 := by
      norm_num
    linarith
  have hA2 : Real.arctan (0.151977 * Real.sqrt 68.313659) ≤ 0.899 := by
    have h := arctan_ub_shift (q := 1.2562) (by norm_num) harg2
    have hc : ((1.2562:ℝ) - 1) / (1.2562 + 1) ≤ 0.11356 := by norm_num
    linarith
  have hB1 : (1.5599:ℝ) ≤ Real.arctan 92 := by
    have h := arctan_lb_inv (q := 92) (by norm_num) le_rfl
    have : ((92:ℝ))⁻¹ ≤ 0.0108696 := by norm_num
    linarith
  have hB2 : Real.arctan (92:ℝ) ≤ 1.5707965 := by
    have := Real.arctan_lt_pi_div_two (92:ℝ)
    linarith
  have hC1 : (1.5535:ℝ) ≤ Real.arctan 58.323669 := by
    have h := arctan_lb_inv (q := 58) (by norm_num)
      (by norm_num : (58:ℝ) ≤ 58.323669)
    have : ((58:ℝ))⁻¹ ≤ 0.0172414 := by norm_num
    linarith
  have hC2 : Real.arctan (58.323669:ℝ) ≤ 1.5707965 := by
    have := Real.arctan_lt_pi_div_two (58.323669:ℝ)
    linarith
  have hP1 : (1.7223:ℝ) ≤
      0.00391838 * Real.sqrt 216000 * Real.arctan 1.38606 := by
    have hs : (464.758:ℝ) ≤ Real.sqrt 216000 := sqrt_lb (by norm_num)
    have hd : (0.94578:ℝ) ≤ Real.arctan 1.38606 := by
      have h := arctan_lb_shift (q := 1.38606) (by norm_num) le_rfl
      have hc : (0.160386:ℝ) ≤
          (1.38606 - 1) / (1.38606 + 1) -
            ((1.38606 - 1) / (1.38606 + 1)) ^ 3 / 3 := by norm_num
      linarith
    have := mul3_lb (k := 0.00391838) (by norm_num) hs hd (by norm_num)
      (by norm_num)
    linarith
  have hP2 : 0.00391838 * Real.sqrt 216000 * Real.arctan 1.38606 ≤ 1.725 := by
    have hs : Real.sqrt (216000:ℝ) ≤ 464.7581 :=
      sqrt_ub (by norm_num) (by norm_num)
    have hd : Real.arctan (1.38606:ℝ) ≤ 0.9472 := by
      have h := arctan_ub_shift (q := 1.38606) (by norm_num) le_rfl
      have hc : ((1.38606:ℝ) - 1) / (1.38606 + 1) ≤ 0.16180 := by norm_num
      linarith
    have := mul3_ub (k := 0.00391838) (by norm_num) hs hd
      (Real.sqrt_nonneg _) (arctan_nonneg_of_nonneg (by norm_num))
    linarith
  rw [abs_le]
  constructor
  · linarith
  · linarith

/-! ### Claim C8: behaviour at 100 percent humidity -/

/-- The estimate at RH = 100 in literal form, for in-range temperature. -/
theorem wetBulb_T_100 {T : ℝ} (h1 : -40 ≤ T) (h2 : T ≤ 60) :
    wetBulbReal T 100 =
      T * Real.arctan (0.151977 * Real.sqrt 108.313659) +
          Real.arctan (T + 100) - Real.arctan 98.323669 +
          0.00391838 * 1000 * Real.arctan 2.3101 - 4.686035 := by
  rw [wetBulbReal_in_range h1 h2 (by norm_num) (by norm_num)]
  have hsq : Real.sqrt ((100:ℝ) ^ 3) = 1000 := by
    rw [show ((100:ℝ) ^ 3) = 1000 ^ 2 by norm_num, Real.sqrt_sq (by norm_num)]
  rw [hsq]
  norm_num

/-- Counterexample to claim C8: at T = 0 and RH = 100 the estimate is not
the dry-bulb temperature 0 (the Stull fit returns a strictly negative
value there). -/
theorem C8_counterexample :
    calculateWetBulb (JSNumber.fin 0) (JSNumber.fin 100) ≠ JSNumber.fin 0 := by
  intro h
  have hval : wetBulbReal 0 100 = 0 := by
    have h2 : JSNumber.fin (wetBulbReal 0 100) = JSNumber.fin 0 := h
    injection h2
  have hneg : wetBulbReal 0 100 < 0 := by
    have hpigt := Real.pi_gt_d6
    have hpilt := Real.pi_lt_d6
    rw [wetBulb_T_100 (by norm_num) (by norm_num)]
    have hB : Real.arctan ((0:ℝ) + 100) ≤ 1.5707965 := by
      have := Real.arctan_lt_pi_div_two ((0:ℝ) + 100)
      linarith
    have hC : (1.56059:ℝ) ≤ Real.arctan 98.323669 := by
      have h := arctan_lb_inv (q := 98) (by norm_num)
        (by norm_num : (98:ℝ) ≤ 98.323669)
      have : ((98:ℝ))⁻¹ ≤ 0.0102041 := by norm_num
      linarith
    have hD : Real.arctan (2.3101:ℝ) ≤ 1.16496 := by
      have h := arctan_ub_inv (q := 2.3101) (by norm_num) le_rfl
      have hc : (0.40584:ℝ) ≤ (2.3101:ℝ)⁻¹ - ((2.3101:ℝ)⁻¹) ^ 3 / 3 := by
        norm_num
      linarith
    linarith
  rw [hval] at hneg
  exact lt_irrefl 0 hneg

/-- Claim C8 amended: at 100 percent relative humidity the estimate tracks
the dry-bulb temperature only approximately: for every finite T in
[-40, 60] it is within 1 degree of T, but (by the counterexample above) it
is not exactly T. -/
theorem C8_saturation_approx (T : ℝ) (h1 : -40 ≤ T) (h2 : T ≤ 60) :
    |wetBulbReal T 100 - T| ≤ 1 := by
  have hpigt := Real.pi_gt_d6
  have hpilt := Real.pi_lt_d6
  rw [wetBulb_T_100 h1 h2]
  set c := Real.arctan (0.151977 * Real.sqrt 108.313659) with hcdef
  have hs1 : (10.4073:ℝ) ≤ Real.sqrt 108.313659 := sqrt_lb (by norm_num)
  have hs2 : Real.sqrt (108.313659:ℝ) ≤ 10.4074 :=
    sqrt_ub (by norm_num) (by norm_num)
  have harg1 : (1.58167:ℝ) ≤ 0.151977 * Real.sqrt 108.313659 := by
    have := mul_le_mul_of_nonneg_left hs1 (show (0:ℝ) ≤ 0.151977 by norm_num)
    linarith
  have harg2 : 0.151977 * Real.sqrt 108.313659 ≤ 1.58169 := by
    have := mul_le_mul_of_nonneg_left hs2 (show (0:ℝ) ≤ 0.151977 by norm_num)
    linarith
  have hc1 : (1.00689:ℝ) ≤ c := by
    have h := arctan_lb_shift (q := 1.58167) (by norm_num) harg1
    have hcc : (0.22149:ℝ) ≤
        (1.58167 - 1) / (1.58167 + 1) -
          ((1.58167 - 1) / (1.58167 + 1)) ^ 3 / 3 := by norm_num
    rw [hcdef]
    linarith
  have hc2 : c ≤ 1.01072 := by
    have h := arctan_ub_shift (q := 1.58169) (by norm_num) harg2
    have hcc : ((1.58169:ℝ) - 1) / (1.58169 + 1) ≤ 0.22532 := by norm_num
    rw [hcdef]
    linarith
  have hB1 : (1.55412:ℝ) ≤ Real.arctan (T + 100) := by
    have h := arctan_lb_inv (q := 60) (by norm_num)
      (by linarith : (60:ℝ) ≤ T + 100)
    have : ((60:ℝ))⁻¹ ≤ 0.0166667 := by norm_num
    linarith
  have hB2 : Real.arctan (T + 100) ≤ 1.5707965 := by
    have := Real.arctan_lt_pi_div_two (T + 100)
    linarith
  have hC1 : (1.56059:ℝ) ≤ Real.arctan 98.323669 := by
    have h := arctan_lb_inv (q := 98) (by norm_num)
      (by norm_num : (98:ℝ) ≤ 98.323669)
    have : ((98:ℝ))⁻¹ ≤ 0.0102041 := by norm_num
    linarith
  have hC2 : Real.arctan (98.323669:ℝ) ≤ 1.5707965 := by
    have := Real.arctan_lt_pi_div_two (98.323669:ℝ)
    linarith
  have hD1 : (1.1379:ℝ) ≤ Real.arctan 2.3101 := by
    have h := arctan_lb_inv (q := 2.3101) (by norm_num) le_rfl
    have : ((2.3101:ℝ))⁻¹ ≤ 0.43289 := by norm_num
    linarith
  have hD2 : Real.arctan (2.3101:ℝ) ≤ 1.16496 := by
    have h := arctan_ub_inv (q := 2.3101) (by norm_num) le_rfl
    have hc : (0.40584:ℝ) ≤ (2.3101:ℝ)⁻¹ - ((2.3101:ℝ)⁻¹) ^ 3 / 3 := by
      norm_num
    linarith
  have h60c : (0:ℝ) ≤ (60 - T) * (c - 1.00689) :=
    mul_nonneg (by linarith) (by linarith)
  have h40c : (0:ℝ) ≤ (T + 40) * (c - 1.00689) :=
    mul_nonneg (by linarith) (by linarith)
  rw [abs_le]
  constructor
  · nlinarith [h40c, hc1, hc2, hB1, hC2, hD1]
  · nlinarith [h60c, hc1, hc2, hB2, hC1, hD2]

/-- Witness for the amended C8 at T = 25. -/
theorem C8_saturation_approx_witness :
    |wetBulbReal 25 100 - 25| ≤ 1 :=
  C8_saturation_approx 25 (by norm_num) (by norm_num)

end WetBulb
